import Mathlib

/-!
Verification of the offline synchronization and conflict-resolution
subsystem of the woti-v2-server repository.

The development shallowly embeds the JavaScript source:

* `src/utils/syncResolver.js` — `resolveConflict`, `hasConflict`,
  `validateSyncMetadata`, `createSyncResponse`;
* `src/modules/attendance/attendance.repository.js` — `create`, `update`;
* `src/modules/attendance/attendance.service.js` — `syncOfflineRecords`;
* the `attendance` table of `database/schema` (its CHECK constraints and
  NOT NULL columns are enforced by the pure store model).

Modelling conventions:

* A JavaScript record is a structure of `Option`-valued fields; `none`
  models an absent / `undefined` / `null` property.  The source reads
  both camelCase properties (service layer) and snake_case properties
  (`syncResolver.js` and the repository update allowlist), so both
  families of fields are modelled.
* Timestamps are already-parsed epoch milliseconds (`Int`).  Wire
  timestamps are non-empty strings, which are always truthy in
  JavaScript, so timestamp truthiness is modelled as `Option.isSome`;
  `new Date(undefined).getTime()` is `NaN`, and every `NaN` comparison
  is `false`, which `diffExceedsMinute` reproduces.
* Numeric truthiness (`0` is falsy) and string truthiness (`""` is
  falsy) are modelled explicitly where the source uses `||` coercions.
* The database is a list of rows plus a fresh-id counter; SQL `=` on a
  `NULL` operand never matches, which `sqlEq` reproduces.
-/

/-- String truthiness in JavaScript: absent, `null` and `""` are falsy. -/
def truthyStr : Option String → Bool
  | none => false
  | some s => s ≠ ""

/-- Numeric truthiness in JavaScript: absent, `null` and `0` are falsy. -/
def truthyNum : Option Int → Bool
  | none => false
  | some n => n ≠ 0

/-- Timestamp truthiness: wire timestamps are non-empty strings, truthy
exactly when present. -/
def truthyTs (t : Option Int) : Bool := t.isSome

/-- JavaScript `v || null` for string-valued properties. -/
def orNullStr (v : Option String) : Option String :=
  if truthyStr v then v else none

/-- JavaScript `v || null` for numeric properties: note that the value
`0` is coerced to `null` by this idiom. -/
def orNullNum (v : Option Int) : Option Int :=
  if truthyNum v then v else none

/-- JavaScript `v || d` for numeric properties with default `d`. -/
def jsOrNum (v : Option Int) (d : Int) : Int :=
  match v with
  | some n => if n = 0 then d else n
  | none => d

/-- JavaScript `v || d` for string properties with default `d`. -/
def jsOrStr (v : Option String) (d : String) : String :=
  match v with
  | some s => if s = "" then d else s
  | none => d

/-- SQL equality against a query parameter: `col = param` is satisfied
only when both sides are non-`NULL` and equal (a `NULL` operand never
matches). -/
def sqlEq {α : Type} [DecidableEq α] : Option α → Option α → Bool
  | some a, some b => a = b
  | _, _ => false

/-- An incoming JavaScript record as handled by the sync pipeline.  The
service layer (`attendance.service.js`) reads the camelCase properties;
`syncResolver.js` and the repository update allowlist read the
snake_case properties.  `notes`, `status`, `synced` and `metadata` are
spelled identically in both conventions.  `none` models an absent
property. -/
structure JsRecord where
  deviceId : Option String := none
  clientTimestamp : Option Int := none
  facilityId : Option String := none
  clockIn : Option Int := none
  clockOut : Option Int := none
  clockInLatitude : Option Int := none
  clockInLongitude : Option Int := none
  clockOutLatitude : Option Int := none
  clockOutLongitude : Option Int := none
  syncVersion : Option Int := none
  conflictResolutionStrategy : Option String := none
  device_id : Option String := none
  client_timestamp : Option Int := none
  sync_version : Option Int := none
  conflict_resolution_strategy : Option String := none
  clock_in : Option Int := none
  clock_out : Option Int := none
  clock_out_latitude : Option Int := none
  clock_out_longitude : Option Int := none
  notes : Option String := none
  status : Option String := none
  synced : Option Bool := none
  metadata : Option String := none
deriving Repr, DecidableEq

/-- A stored row of the `attendance` table (the columns the sync
subsystem touches).  `clock_in`, `status`, `sync_version` and
`conflict_resolution_strategy` are `NOT NULL` (or defaulted) columns.
`metadata` uses `none` for the defaulted empty JSON object. -/
structure Row where
  id : Nat
  user_id : String
  facility_id : Option String
  clock_in : Int
  clock_out : Option Int
  clock_in_latitude : Option Int
  clock_in_longitude : Option Int
  clock_out_latitude : Option Int
  clock_out_longitude : Option Int
  notes : Option String
  status : String
  synced : Bool
  client_timestamp : Option Int
  device_id : Option String
  sync_version : Int
  conflict_resolution_strategy : String
  metadata : Option String
deriving Repr, DecidableEq

/-- The durable store: the `attendance` table plus a fresh-id source
standing in for `uuid_generate_v4()`. -/
structure Store where
  rows : List Row
  nextId : Nat
deriving Repr, DecidableEq

/-- Result of `validateSyncMetadata` in `syncResolver.js`. -/
structure ValidationResult where
  isValid : Bool
  errors : List String
deriving Repr, DecidableEq

/-- The `validStrategies` list of `syncResolver.js`. -/
def validStrategies : List String := ["client_wins", "server_wins", "manual"]

/-- Embedding of `validateSyncMetadata` (`syncResolver.js`).  It reads
the snake_case properties `device_id`, `client_timestamp`,
`sync_version` and `conflict_resolution_strategy` of the record.  The
`typeof record.sync_version !== 'number'` branch never fires here
because `sync_version` is modelled as numeric whenever present. -/
def validateSyncMetadata (record : JsRecord) : ValidationResult :=
  let errors : List String :=
    (if truthyStr record.device_id then [] else ["Missing device_id"]) ++
    (if truthyTs record.client_timestamp then [] else ["Missing client_timestamp"]) ++
    (if truthyStr record.conflict_resolution_strategy &&
        !(validStrategies.contains (record.conflict_resolution_strategy.getD ""))
     then ["Invalid conflict_resolution_strategy"] else [])
  { isValid := errors.isEmpty, errors := errors }

/-- JavaScript `Math.abs(new Date(a).getTime() - b) > 60000` where `a`
may be absent: an absent operand yields `NaN`, and any comparison
against `NaN` is `false`. -/
def diffExceedsMinute : Option Int → Int → Bool
  | none, _ => false
  | some a, b => 60000 < (a - b).natAbs

/-- Embedding of `hasConflict` (`syncResolver.js`).  The client side is
probed through its snake_case properties `sync_version`, `clock_in`,
`clock_out`; the server side is a stored row.  The `!serverRecord`
guard of the source is subsumed by the caller supplying a row. -/
def hasConflict (clientRecord : JsRecord) (serverRecord : Row) : Bool :=
  if clientRecord.sync_version ≠ some serverRecord.sync_version then true
  else if diffExceedsMinute clientRecord.clock_in serverRecord.clock_in then true
  else if truthyTs clientRecord.clock_out && truthyTs serverRecord.clock_out then
    match clientRecord.clock_out, serverRecord.clock_out with
    | some a, some b => 60000 < (a - b).natAbs
    | _, _ => false
  else false

/-- Result object of `resolveConflict` (`syncResolver.js`): `resolved`
is the client record, the server record, or `null` (for `manual`);
`winner` is the string the service layer branches on; under `manual`
both records are also returned for admin review. -/
structure Resolution where
  resolved : Option (Sum JsRecord Row)
  winner : String
  reason : String
  clientRecord : Option JsRecord := none
  serverRecord : Option Row := none
deriving Repr, DecidableEq

/-- Embedding of `resolveConflict` (`syncResolver.js`): a strategy
switch with a server-wins default for unrecognized strategies. -/
def resolveConflict (clientRecord : JsRecord) (serverRecord : Row)
    (strategy : String) : Resolution :=
  if strategy = "client_wins" then
    { resolved := some (Sum.inl clientRecord), winner := "client",
      reason := "Client-wins strategy applied" }
  else if strategy = "server_wins" then
    { resolved := some (Sum.inr serverRecord), winner := "server",
      reason := "Server-wins strategy applied" }
  else if strategy = "manual" then
    { resolved := none, winner := "manual",
      reason := "Manual resolution required",
      clientRecord := some clientRecord, serverRecord := some serverRecord }
  else
    { resolved := some (Sum.inr serverRecord), winner := "server",
      reason := "Unknown strategy, defaulted to server_wins" }

/-- The CHECK on a spatial pair from the `attendance` table: either both
components are `NULL`, or both are present and within range. -/
def validCoordPair (lat lng : Option Int) : Bool :=
  match lat, lng with
  | none, none => true
  | some a, some b => -90 ≤ a ∧ a ≤ 90 ∧ -180 ≤ b ∧ b ≤ 180
  | _, _ => false

/-- The row-level constraints of the `attendance` table that an INSERT
or UPDATE must satisfy: `valid_clock_in_coords`,
`valid_clock_out_coords`, `valid_clock_times` and the CHECK lists on
`status` and `conflict_resolution_strategy`. -/
def rowChecksOk (r : Row) : Bool :=
  validCoordPair r.clock_in_latitude r.clock_in_longitude &&
  validCoordPair r.clock_out_latitude r.clock_out_longitude &&
  (match r.clock_out with
   | none => true
   | some co => decide (r.clock_in < co)) &&
  ["clocked_in", "clocked_out", "incomplete"].contains r.status &&
  validStrategies.contains r.conflict_resolution_strategy

/-- The argument object the service layer passes to
`attendanceRepository.create`. -/
structure CreateData where
  userId : String
  facilityId : Option String := none
  clockIn : Option Int := none
  clockOut : Option Int := none
  clockInLatitude : Option Int := none
  clockInLongitude : Option Int := none
  clockOutLatitude : Option Int := none
  clockOutLongitude : Option Int := none
  notes : Option String := none
  deviceId : Option String := none
  clientTimestamp : Option Int := none
  syncVersion : Option Int := none
  conflictResolutionStrategy : Option String := none
  metadata : Option String := none
  synced : Option Bool := none
deriving Repr, DecidableEq

/-- The row built by the INSERT of `attendanceRepository.create`
(`attendance.repository.js`).  The column list is exactly the source's:
`clock_out`, `clock_out_latitude` and `clock_out_longitude` are not
inserted even when the argument carries them.  `synced` is the source's
`attendanceData.synced || true`, which is `true` for every input. -/
def createdRow (now : Int) (nextId : Nat) (d : CreateData) : Row :=
  { id := nextId
    user_id := d.userId
    facility_id := d.facilityId
    clock_in := d.clockIn.getD now
    clock_out := none
    clock_in_latitude := orNullNum d.clockInLatitude
    clock_in_longitude := orNullNum d.clockInLongitude
    clock_out_latitude := none
    clock_out_longitude := none
    notes := orNullStr d.notes
    status := "clocked_in"
    synced := true
    client_timestamp := d.clientTimestamp
    device_id := orNullStr d.deviceId
    sync_version := jsOrNum d.syncVersion 1
    conflict_resolution_strategy := jsOrStr d.conflictResolutionStrategy "server_wins"
    metadata := orNullStr d.metadata }

/-- Embedding of `attendanceRepository.create`: the INSERT succeeds when
the new row satisfies the table's NOT NULL and CHECK constraints and
fails with the database error otherwise. -/
def attendanceCreate (now : Int) (s : Store) (d : CreateData) :
    Except String (Row × Store) :=
  if d.facilityId.isNone then
    Except.error "null value in column facility_id violates not-null constraint"
  else if ¬ rowChecksOk (createdRow now s.nextId d) then
    Except.error "new row for relation attendance violates check constraint"
  else
    Except.ok (createdRow now s.nextId d,
      { rows := s.rows ++ [createdRow now s.nextId d], nextId := s.nextId + 1 })

/-- The update object after the `allowedFields` filter of
`attendanceRepository.update`: only the snake_case keys `clock_out`,
`clock_out_latitude`, `clock_out_longitude`, `notes`, `status`,
`synced`, `sync_version` and `metadata` survive; `none` models a key
that is absent or `undefined` and therefore not written. -/
structure UpdateMap where
  clock_out : Option Int := none
  clock_out_latitude : Option Int := none
  clock_out_longitude : Option Int := none
  notes : Option String := none
  status : Option String := none
  synced : Option Bool := none
  sync_version : Option Int := none
  metadata : Option String := none
deriving Repr, DecidableEq

/-- Whether the filtered update map carries no field at all (the source
then throws `No valid fields to update`). -/
def UpdateMap.isEmpty (u : UpdateMap) : Bool :=
  u.clock_out.isNone ∧ u.clock_out_latitude.isNone ∧
  u.clock_out_longitude.isNone ∧ u.notes.isNone ∧ u.status.isNone ∧
  u.synced.isNone ∧ u.sync_version.isNone ∧ u.metadata.isNone

/-- Apply an update map to a row: each present field overwrites the
corresponding column, absent fields leave the column unchanged. -/
def applyUpdate (u : UpdateMap) (r : Row) : Row :=
  { r with
    clock_out := u.clock_out.orElse (fun _ => r.clock_out)
    clock_out_latitude := u.clock_out_latitude.orElse (fun _ => r.clock_out_latitude)
    clock_out_longitude := u.clock_out_longitude.orElse (fun _ => r.clock_out_longitude)
    notes := u.notes.orElse (fun _ => r.notes)
    status := u.status.getD r.status
    synced := u.synced.getD r.synced
    sync_version := u.sync_version.getD r.sync_version
    metadata := u.metadata.orElse (fun _ => r.metadata) }

/-- Embedding of `attendanceRepository.update`: throws when no allowed
field is present, updates the row matching `id` (returning `none` when
no row matches, as the source returns `rows[0]` of an empty result),
and fails with the database error when the updated row violates a CHECK
constraint. -/
def attendanceUpdate (s : Store) (id : Nat) (u : UpdateMap) :
    Except String (Option Row × Store) :=
  if u.isEmpty then Except.error "No valid fields to update"
  else
    match s.rows.find? (fun r => r.id = id) with
    | none => Except.ok (none, s)
    | some r =>
      if ¬ rowChecksOk (applyUpdate u r) then
        Except.error "new row for relation attendance violates check constraint"
      else
        Except.ok (some (applyUpdate u r),
          { s with rows := s.rows.map (fun x => if x.id = id then applyUpdate u x else x) })

/-- The dedup lookup issued by the service layer:
`SELECT * FROM attendance WHERE device_id = $1 AND client_timestamp = $2`
with the camelCase `record.deviceId` / `record.clientTimestamp` as
parameters (an `undefined` parameter is sent as `NULL` and matches no
row). -/
def findByDeviceAndClientTimestamp (s : Store) (d : Option String)
    (ct : Option Int) : List Row :=
  s.rows.filter (fun r => sqlEq r.device_id d && sqlEq r.client_timestamp ct)

/-- The storage operations `syncOfflineRecords` performs, abstracted so
that per-record storage failures (the service's try/catch boundary) can
be analysed for an arbitrary store behaviour. -/
structure Gateway where
  find : Store → Option String → Option Int → Except String (List Row)
  create : Store → CreateData → Except String (Row × Store)
  update : Store → Nat → UpdateMap → Except String (Option Row × Store)

/-- The gateway realised by the pure embedding of the repository and
the schema. -/
def pureGateway (now : Int) : Gateway :=
  { find := fun s d ct => Except.ok (findByDeviceAndClientTimestamp s d ct)
    create := fun s d => attendanceCreate now s d
    update := fun s id u => attendanceUpdate s id u }

/-- Entry of the `synced` bucket: the source pushes
`{id, action}` or `{id, action, resolution}`. -/
structure SyncedEntry where
  id : Nat
  action : String
  resolution : Option String := none
deriving Repr, DecidableEq

/-- Entry of the `conflicts` bucket: the source pushes
`{record, existingRecord, resolution}`. -/
structure ConflictEntry where
  record : JsRecord
  existingRecord : Row
  resolution : Resolution
deriving Repr, DecidableEq

/-- Entry of the `errors` bucket: the source pushes
`{record, errors}` with either the validation errors or the caught
error message. -/
structure ErrorEntry where
  record : JsRecord
  errors : List String
deriving Repr, DecidableEq

/-- Embedding of the object returned by `createSyncResponse`
(`syncResolver.js`): the three counts are the bucket lengths and the
three buckets are returned under `data`. -/
structure SyncResponse where
  success : Bool
  synced : Nat
  conflicts : Nat
  errors : Nat
  timestamp : Int
  dataSynced : List SyncedEntry
  dataConflicts : List ConflictEntry
  dataErrors : List ErrorEntry
deriving Repr, DecidableEq

/-- Embedding of `createSyncResponse` (`syncResolver.js`). -/
def createSyncResponse (now : Int) (syncedRecords : List SyncedEntry)
    (conflicts : List ConflictEntry) (errors : List ErrorEntry) : SyncResponse :=
  { success := true
    synced := syncedRecords.length
    conflicts := conflicts.length
    errors := errors.length
    timestamp := now
    dataSynced := syncedRecords
    dataConflicts := conflicts
    dataErrors := errors }

/-- The strategy the service passes to `resolveConflict`:
`record.conflictResolutionStrategy || 'server_wins'` (camelCase). -/
def strategyOf (record : JsRecord) : String :=
  jsOrStr record.conflictResolutionStrategy "server_wins"

/-- The object literal the service builds for
`attendanceRepository.create` in the no-match branch of
`syncOfflineRecords` (camelCase reads of the incoming record). -/
def createDataOfRecord (userId : String) (record : JsRecord) : CreateData :=
  { userId := userId
    facilityId := record.facilityId
    clockIn := record.clockIn
    clockOut := record.clockOut
    clockInLatitude := record.clockInLatitude
    clockInLongitude := record.clockInLongitude
    clockOutLatitude := record.clockOutLatitude
    clockOutLongitude := record.clockOutLongitude
    notes := record.notes
    deviceId := record.deviceId
    clientTimestamp := record.clientTimestamp
    syncVersion := some (jsOrNum record.syncVersion 1)
    conflictResolutionStrategy := record.conflictResolutionStrategy
    metadata := record.metadata
    synced := some true }

/-- The update object the service builds in the client-wins branch:
`{...record, sync_version: existing.sync_version + 1}` after the
repository's `allowedFields` filter.  Only the record's own keys named
`clock_out`, `clock_out_latitude`, `clock_out_longitude`, `notes`,
`status`, `synced` and `metadata` survive the filter, and
`sync_version` is the explicit override. -/
def updateMapOfRecord (record : JsRecord) (v : Int) : UpdateMap :=
  { clock_out := record.clock_out
    clock_out_latitude := record.clock_out_latitude
    clock_out_longitude := record.clock_out_longitude
    notes := record.notes
    status := record.status
    synced := record.synced
    sync_version := some v
    metadata := record.metadata }

/-- The accumulating state of the per-record loop of
`syncOfflineRecords`: the three buckets plus the durable store. -/
structure SyncState where
  store : Store
  synced : List SyncedEntry := []
  conflicts : List ConflictEntry := []
  errors : List ErrorEntry := []
deriving Repr, DecidableEq

/-- One iteration of the `for (const record of records)` loop of
`syncOfflineRecords` (`attendance.service.js`): validate, look up the
dedup key, detect and resolve conflicts, persist, and route the record
to exactly one bucket; any storage error is caught and routed to the
`errors` bucket. -/
def syncStep (gw : Gateway) (userId : String) (acc : SyncState)
    (record : JsRecord) : SyncState :=
  if (validateSyncMetadata record).isValid = false then
    { acc with errors := acc.errors ++
        [{ record := record, errors := (validateSyncMetadata record).errors }] }
  else
    match gw.find acc.store record.deviceId record.clientTimestamp with
    | Except.error e =>
      { acc with errors := acc.errors ++ [{ record := record, errors := [e] }] }
    | Except.ok rows =>
      match rows.head? with
      | some existingRecord =>
        if hasConflict record existingRecord then
          if (resolveConflict record existingRecord (strategyOf record)).winner = "manual" then
            { acc with conflicts := acc.conflicts ++
                [{ record := record, existingRecord := existingRecord,
                   resolution := resolveConflict record existingRecord (strategyOf record) }] }
          else if (resolveConflict record existingRecord (strategyOf record)).winner = "client" then
            match gw.update acc.store existingRecord.id
                (updateMapOfRecord record (existingRecord.sync_version + 1)) with
            | Except.error e =>
              { acc with errors := acc.errors ++ [{ record := record, errors := [e] }] }
            | Except.ok (_, store2) =>
              { acc with
                store := store2
                synced := acc.synced ++
                  [{ id := existingRecord.id, action := "updated",
                     resolution := some (resolveConflict record existingRecord (strategyOf record)).winner }] }
          else
            { acc with synced := acc.synced ++
                [{ id := existingRecord.id, action := "updated",
                   resolution := some (resolveConflict record existingRecord (strategyOf record)).winner }] }
        else
          { acc with synced := acc.synced ++
              [{ id := existingRecord.id, action := "no_change" }] }
      | none =>
        match gw.create acc.store (createDataOfRecord userId record) with
        | Except.error e =>
          { acc with errors := acc.errors ++ [{ record := record, errors := [e] }] }
        | Except.ok (created, store2) =>
          { acc with
            store := store2
            synced := acc.synced ++ [{ id := created.id, action := "created" }] }

/-- Embedding of `syncOfflineRecords` (`attendance.service.js`):
process the batch sequentially and return the response built by
`createSyncResponse` together with the final store. -/
def syncOfflineRecords (gw : Gateway) (now : Int) (userId : String)
    (records : List JsRecord) (s0 : Store) : SyncResponse × Store :=
  let final := records.foldl (syncStep gw userId) { store := s0 }
  (createSyncResponse now final.synced final.conflicts final.errors, final.store)

/-- Whether two rows carry the same dedup key: both device identifiers
present and equal, and both client timestamps present and equal.  A row
with a `NULL` component has no dedup key and shares it with nobody,
matching the SQL semantics under which the service's lookup operates. -/
def sharesKey (a b : Row) : Bool :=
  match a.device_id, b.device_id, a.client_timestamp, b.client_timestamp with
  | some d1, some d2, some t1, some t2 => d1 = d2 && t1 = t2
  | _, _, _, _ => false

/-- Dedup-key uniqueness of a row list: no two rows (at distinct
positions) share the same present dedup key. -/
def dedupOk : List Row → Bool
  | [] => true
  | r :: rs => rs.all (fun x => !(sharesKey r x)) && dedupOk rs

/-- A stored record `E` with `syncVersion 1` and `clockIn T = 0`,
created for device `dev` at client timestamp `100`. -/
def exServerRow : Row :=
  { id := 1, user_id := "u", facility_id := some "f", clock_in := 0,
    clock_out := none, clock_in_latitude := none, clock_in_longitude := none,
    clock_out_latitude := none, clock_out_longitude := none, notes := none,
    status := "clocked_in", synced := true, client_timestamp := some 100,
    device_id := some "dev", sync_version := 1,
    conflict_resolution_strategy := "server_wins", metadata := none }

/-- An incoming record `C` with `syncVersion 2` and
`clockIn T + 120s = 120000` for the same dedup key as `exServerRow`,
declaring the `client_wins` strategy.  It carries the snake_case copies
of `device_id`, `client_timestamp` and `sync_version` that
`validateSyncMetadata` and `hasConflict` read, so the conflict branch
of the pipeline is actually reached. -/
def exClientWinsRecord : JsRecord :=
  { deviceId := some "dev", clientTimestamp := some 100,
    device_id := some "dev", client_timestamp := some 100,
    sync_version := some 2, clockIn := some 120000,
    conflictResolutionStrategy := some "client_wins" }

/-- The incoming record of `exClientWinsRecord` with the `manual`
strategy instead. -/
def exManualRecord : JsRecord :=
  { exClientWinsRecord with conflictResolutionStrategy := some "manual" }

/-- The incoming record of `exClientWinsRecord` with an unrecognized
strategy string instead. -/
def exBogusRecord : JsRecord :=
  { exClientWinsRecord with conflictResolutionStrategy := some "bogus" }

/-- The store holding exactly `exServerRow`. -/
def exStore : Store := { rows := [exServerRow], nextId := 2 }

/-- A record in the documented wire format of the sync request (spec
section 6 and `docs/OFFLINE_SYNC_DESIGN.md`): camelCase `deviceId` and
`clientTimestamp`, a facility, and a clock-in time. -/
def exDocRecord : JsRecord :=
  { deviceId := some "device_123", clientTimestamp := some 100,
    facilityId := some "fac-1", clockIn := some 0 }

/-- First valid record of the three-record batch of the
partial-failure property (documented wire format). -/
def exBatchRec1 : JsRecord :=
  { deviceId := some "dev-a", clientTimestamp := some 10,
    facilityId := some "f", clockIn := some 0 }

/-- Second record of the batch: `deviceId` missing, all else valid. -/
def exBatchRec2 : JsRecord :=
  { clientTimestamp := some 20, facilityId := some "f", clockIn := some 0 }

/-- Third valid record of the batch (documented wire format). -/
def exBatchRec3 : JsRecord :=
  { deviceId := some "dev-c", clientTimestamp := some 30,
    facilityId := some "f", clockIn := some 0 }

/-- A record whose `clockInLatitude` is `95`, outside `[-90, 90]`, with
every other field valid — including the snake_case `device_id` and
`client_timestamp` that metadata validation requires, so that no other
field can be blamed for a rejection. -/
def exLat95Record : JsRecord :=
  { deviceId := some "dev9", clientTimestamp := some 50,
    device_id := some "dev9", client_timestamp := some 50,
    facilityId := some "f", clockIn := some 10,
    clockInLatitude := some 95, clockInLongitude := some 30 }

/-- A client record for conflict detection: same version and clock-in
as `exServerRow`, but with a clock-out the server side lacks. -/
def exAsymClockOutRecord : JsRecord :=
  { device_id := some "dev", client_timestamp := some 100,
    sync_version := some 1, clock_in := some 0, clock_out := some 100000 }

/-- Create input carrying a full clock-out: used to observe that the
INSERT of the repository drops every clock-out column. -/
def exCreateDataWithClockOut : CreateData :=
  { userId := "u", facilityId := some "f", clockIn := some 0,
    clockOut := some 30000000, clockOutLatitude := some 5,
    clockOutLongitude := some 6, deviceId := some "dev",
    clientTimestamp := some 100 }

/-- C1: the claim asserts that under a detected conflict with strategy
`client_wins` the stored record is updated in place with the incoming
record's fields, so that with existing `syncVersion 1, clockIn T` and
incoming `syncVersion 2, clockIn T+120s` the stored `clockIn` becomes
`T+120s` and `syncVersion` becomes `2`.  Evaluating the pipeline at
exactly that instance shows the code bumps `sync_version` to `2` but
leaves `clock_in` at `T = 0`: the repository update allowlist contains
no `clock_in` key and the incoming record's camelCase fields are
dropped by the filter, so only `sync_version` is written. -/
theorem c1_client_wins_does_not_apply_client_fields :
    (syncOfflineRecords (pureGateway 999) 999 "u" [exClientWinsRecord] exStore).2.rows =
      [{ exServerRow with sync_version := 2 }] ∧
    ((syncOfflineRecords (pureGateway 999) 999 "u" [exClientWinsRecord] exStore).2.rows.map
      (fun r => (r.clock_in, r.sync_version))) = [(0, 2)] ∧
    exClientWinsRecord.clockIn = some 120000 ∧
    (syncOfflineRecords (pureGateway 999) 999 "u" [exClientWinsRecord] exStore).1.dataSynced =
      [{ id := 1, action := "updated", resolution := some "client" }] := by
  decide

/-- C2: the claim asserts that a well-formed record in the wire format
of spec section 6 is synced with action `created` on first submission.
Evaluating the pipeline on such a record (camelCase `deviceId` and
`clientTimestamp`, as in the repository's own API documentation) shows
it is instead routed to the `errors` bucket with
`Missing device_id` and `Missing client_timestamp`, nothing is ever
persisted, and resubmission repeats the same failure:
`validateSyncMetadata` reads the snake_case keys the wire format does
not carry. -/
theorem c2_documented_record_is_rejected_not_synced :
    (syncOfflineRecords (pureGateway 999) 999 "u" [exDocRecord] ⟨[], 1⟩).1.synced = 0 ∧
    (syncOfflineRecords (pureGateway 999) 999 "u" [exDocRecord] ⟨[], 1⟩).1.errors = 1 ∧
    (syncOfflineRecords (pureGateway 999) 999 "u" [exDocRecord] ⟨[], 1⟩).1.dataErrors =
      [⟨exDocRecord, ["Missing device_id", "Missing client_timestamp"]⟩] ∧
    (syncOfflineRecords (pureGateway 999) 999 "u" [exDocRecord] ⟨[], 1⟩).2 = ⟨[], 1⟩ ∧
    (syncOfflineRecords (pureGateway 999) 999 "u"
      [exDocRecord, exDocRecord] ⟨[], 1⟩).1.errors = 2 := by
  decide

/-- C4: the claim asserts that a batch of three wire-format records in
which only the second lacks `deviceId` yields `synced: 2, errors: 1`
with the two valid records persisted.  Evaluating the pipeline on such
a batch shows all three records land in the `errors` bucket
(`synced: 0, errors: 3`) and nothing is persisted, because
`validateSyncMetadata` reads snake_case `device_id` and
`client_timestamp`, which no record of the documented wire format
carries. -/
theorem c4_partial_failure_batch_fully_rejected :
    (syncOfflineRecords (pureGateway 999) 999 "u"
      [exBatchRec1, exBatchRec2, exBatchRec3] ⟨[], 1⟩).1.synced = 0 ∧
    (syncOfflineRecords (pureGateway 999) 999 "u"
      [exBatchRec1, exBatchRec2, exBatchRec3] ⟨[], 1⟩).1.errors = 3 ∧
    (syncOfflineRecords (pureGateway 999) 999 "u"
      [exBatchRec1, exBatchRec2, exBatchRec3] ⟨[], 1⟩).2.rows = [] := by
  decide

/-- C3 counterexample: a client record and a stored record with equal
`sync_version`, identical `clock_in`, where the client side has a
`clock_out` and the server side does not.  The claim asserts this
asymmetry is classified as a conflict, but `hasConflict` returns
`false`: its clock-out comparison only runs when both sides carry a
clock-out. -/
theorem c3_asymmetric_clockOut_is_not_flagged :
    exAsymClockOutRecord.sync_version = some exServerRow.sync_version ∧
    exAsymClockOutRecord.clock_in = some exServerRow.clock_in ∧
    exAsymClockOutRecord.clock_out.isSome = true ∧
    exServerRow.clock_out = none ∧
    hasConflict exAsymClockOutRecord exServerRow = false := by
  decide

/-- C3 (amended): when an incoming record and a stored record have
equal `sync_version`, clock-in times not differing by more than 60
seconds, and exactly one of the two sides carries a `clock_out`,
`hasConflict` classifies the pair as NOT conflicting: the clock-out
comparison of the detector only runs when both sides carry one, so the
asymmetry is silently accepted as a no-change resubmission. -/
theorem c3_amended_asymmetric_clockOut_not_conflict
    (c : JsRecord) (s : Row)
    (hv : c.sync_version = some s.sync_version)
    (ht : diffExceedsMinute c.clock_in s.clock_in = false)
    (hx : c.clock_out.isSome ≠ s.clock_out.isSome) :
    hasConflict c s = false := by
  have hcond : (truthyTs c.clock_out && truthyTs s.clock_out) = false := by
    unfold truthyTs
    cases h1 : c.clock_out.isSome <;> cases h2 : s.clock_out.isSome <;>
      simp_all
  simp [hasConflict, hv, ht, hcond]

/-- C3 amended witness: the amended statement holds at the concrete
asymmetric pair of the counterexample. -/
theorem c3_amended_witness :
    exAsymClockOutRecord.sync_version = some exServerRow.sync_version ∧
    diffExceedsMinute exAsymClockOutRecord.clock_in exServerRow.clock_in = false ∧
    exAsymClockOutRecord.clock_out.isSome ≠ exServerRow.clock_out.isSome ∧
    hasConflict exAsymClockOutRecord exServerRow = false :=
  ⟨by decide, by decide, by decide,
    c3_amended_asymmetric_clockOut_not_conflict exAsymClockOutRecord exServerRow
      (by decide) (by decide) (by decide)⟩

/-- C10 counterexample: a sync record whose `clockInLatitude` is `95`
and whose every other field is valid passes `validateSyncMetadata` with
no errors at all — the claim that validation rejects it with a
field-level error naming `clockInLatitude` is false: the sync path has
no application-level coordinate validation. -/
theorem c10_validation_accepts_latitude_95 :
    exLat95Record.clockInLatitude = some 95 ∧
    (validateSyncMetadata exLat95Record).isValid = true ∧
    (validateSyncMetadata exLat95Record).errors = [] := by
  decide

/-- C10 (amended): `validateSyncMetadata` does not inspect
`clockInLatitude` at all (its result is invariant under any change to
that field); a record with `clockInLatitude` 95 and all other fields
valid is rejected only when the INSERT violates the database CHECK
constraint `valid_clock_in_coords`, whose storage error is routed to
the `errors` bucket; nothing is persisted. -/
theorem c10_amended_latitude_rejected_only_by_store :
    (∀ (r : JsRecord) (v : Option Int),
        validateSyncMetadata { r with clockInLatitude := v } = validateSyncMetadata r) ∧
    (syncOfflineRecords (pureGateway 999) 999 "u" [exLat95Record] ⟨[], 1⟩).1.dataErrors =
      [⟨exLat95Record, ["new row for relation attendance violates check constraint"]⟩] ∧
    (syncOfflineRecords (pureGateway 999) 999 "u" [exLat95Record] ⟨[], 1⟩).1.synced = 0 ∧
    (syncOfflineRecords (pureGateway 999) 999 "u" [exLat95Record] ⟨[], 1⟩).2.rows = [] :=
  ⟨fun _ _ => rfl, by decide, by decide, by decide⟩

/-- C6: every row produced by `attendanceRepository.create` has a
`NULL` `clock_out`, no clock-out coordinates, and status `clocked_in`,
whatever clock-out data the caller passed: the INSERT statement simply
never writes those columns. -/
theorem c6_create_never_stores_clockOut
    (now : Int) (s : Store) (d : CreateData) (row : Row) (s2 : Store)
    (h : attendanceCreate now s d = Except.ok (row, s2)) :
    row.clock_out = none ∧ row.clock_out_latitude = none ∧
    row.clock_out_longitude = none ∧ row.status = "clocked_in" := by
  unfold attendanceCreate at h
  split at h
  · cases h
  · split at h
    · cases h
    · cases h
      exact ⟨rfl, rfl, rfl, rfl⟩

/-- C6 witness: a create call that carries a full clock-out (time and
both coordinates) still persists a row with `clock_out` `NULL`, no
clock-out coordinates, and status `clocked_in`. -/
theorem c6_create_never_stores_clockOut_witness :
    (createdRow 7 1 exCreateDataWithClockOut).clock_out = none ∧
    (createdRow 7 1 exCreateDataWithClockOut).clock_out_latitude = none ∧
    (createdRow 7 1 exCreateDataWithClockOut).clock_out_longitude = none ∧
    (createdRow 7 1 exCreateDataWithClockOut).status = "clocked_in" :=
  c6_create_never_stores_clockOut 7 ⟨[], 1⟩ exCreateDataWithClockOut
    (createdRow 7 1 exCreateDataWithClockOut)
    ⟨[createdRow 7 1 exCreateDataWithClockOut], 2⟩ rfl

/-- Row updates never touch the dedup key: `device_id` is not an
allowed update field. -/
theorem applyUpdate_device_id (u : UpdateMap) (r : Row) :
    (applyUpdate u r).device_id = r.device_id := rfl

/-- Row updates never touch the dedup key: `client_timestamp` is not an
allowed update field. -/
theorem applyUpdate_client_timestamp (u : UpdateMap) (r : Row) :
    (applyUpdate u r).client_timestamp = r.client_timestamp := rfl

/-- Key sharing only depends on the two dedup-key columns. -/
theorem sharesKey_congr {a a2 b b2 : Row}
    (ha1 : a2.device_id = a.device_id)
    (ha2 : a2.client_timestamp = a.client_timestamp)
    (hb1 : b2.device_id = b.device_id)
    (hb2 : b2.client_timestamp = b.client_timestamp) :
    sharesKey a2 b2 = sharesKey a b := by
  unfold sharesKey
  rw [ha1, ha2, hb1, hb2]

/-- Mapping a key-preserving function over the rows leaves dedup-key
uniqueness untouched. -/
theorem dedupOk_map_of_keys (f : Row → Row)
    (hf : ∀ x, (f x).device_id = x.device_id ∧
               (f x).client_timestamp = x.client_timestamp) :
    ∀ l : List Row, dedupOk (l.map f) = dedupOk l := by
  intro l
  induction l with
  | nil => rfl
  | cons r rs ih =>
    have hfun : (fun x => !(sharesKey (f r) x)) ∘ f = fun x => !(sharesKey r x) := by
      funext x
      simp only [Function.comp]
      rw [sharesKey_congr (hf r).1 (hf r).2 (hf x).1 (hf x).2]
    simp only [List.map_cons, dedupOk, List.all_map, hfun, ih]

/-- Appending one row keeps dedup-key uniqueness exactly when the list
was unique and no existing row shares the new row's key. -/
theorem dedupOk_append_singleton (l : List Row) (r : Row) :
    dedupOk (l ++ [r]) = (dedupOk l && l.all (fun x => !(sharesKey x r))) := by
  induction l with
  | nil => simp [dedupOk]
  | cons a as ih =>
    have hstep : dedupOk ((a :: as) ++ [r]) =
        ((as ++ [r]).all (fun x => !(sharesKey a x)) && dedupOk (as ++ [r])) := rfl
    have hgoal : dedupOk (a :: as) =
        (as.all (fun x => !(sharesKey a x)) && dedupOk as) := rfl
    rw [hstep, hgoal, ih, List.all_append]
    simp only [List.all_cons, List.all_nil]
    cases sharesKey a r <;> cases dedupOk as <;>
      cases as.all (fun x => !(sharesKey a x)) <;>
      cases as.all (fun x => !(sharesKey x r)) <;> rfl

/-- The `v || null` coercion returns a present string only when the
input was that same present string. -/
theorem orNullStr_eq_some {v : Option String} {d : String}
    (h : orNullStr v = some d) : v = some d := by
  unfold orNullStr at h
  split at h
  · exact h
  · cases h

/-- A successful INSERT is exactly the appending of the built row. -/
theorem attendanceCreate_ok_elim {now : Int} {s : Store} {d : CreateData}
    {row : Row} {s2 : Store}
    (h : attendanceCreate now s d = Except.ok (row, s2)) :
    row = createdRow now s.nextId d ∧
    s2 = { rows := s.rows ++ [row], nextId := s.nextId + 1 } := by
  unfold attendanceCreate at h
  split at h
  · cases h
  · split at h
    · cases h
    · cases h
      exact ⟨rfl, rfl⟩

/-- A successful UPDATE either left the store unchanged (no row
matched) or rewrote rows pointwise by a key-preserving function. -/
theorem attendanceUpdate_ok_elim {s : Store} {id : Nat} {u : UpdateMap}
    {res : Option Row} {s2 : Store}
    (h : attendanceUpdate s id u = Except.ok (res, s2)) :
    s2 = s ∨
    s2 = { s with rows := s.rows.map (fun x => if x.id = id then applyUpdate u x else x) } := by
  unfold attendanceUpdate at h
  split at h
  · cases h
  · split at h
    · cases h
      exact Or.inl rfl
    · split at h
      · cases h
      · cases h
        exact Or.inr rfl

/-- A successful UPDATE preserves dedup-key uniqueness. -/
theorem attendanceUpdate_preserves_dedup {s : Store} {id : Nat}
    {u : UpdateMap} {res : Option Row} {s2 : Store}
    (h : attendanceUpdate s id u = Except.ok (res, s2))
    (hd : dedupOk s.rows = true) : dedupOk s2.rows = true := by
  rcases attendanceUpdate_ok_elim h with h2 | h2
  · rw [h2]; exact hd
  · rw [h2]
    have hk : ∀ x : Row, ((if x.id = id then applyUpdate u x else x).device_id = x.device_id ∧
        (if x.id = id then applyUpdate u x else x).client_timestamp = x.client_timestamp) := by
      intro x
      by_cases hx : x.id = id <;> simp [hx, applyUpdate_device_id, applyUpdate_client_timestamp]
    show dedupOk (s.rows.map fun x => if x.id = id then applyUpdate u x else x) = true
    rw [dedupOk_map_of_keys _ hk]
    exact hd

/-- When the dedup lookup for the incoming record found nothing, no
stored row shares the key of the row the service then inserts for it. -/
theorem no_share_of_find_empty (uid : String) {s : Store} {record : JsRecord}
    (hfind : findByDeviceAndClientTimestamp s record.deviceId record.clientTimestamp = [])
    (now : Int) :
    ∀ x ∈ s.rows,
      sharesKey x (createdRow now s.nextId (createDataOfRecord uid record)) = false := by
  intro x hx
  have hnp : ¬ ((sqlEq x.device_id record.deviceId &&
      sqlEq x.client_timestamp record.clientTimestamp) = true) := by
    have h2 := List.filter_eq_nil_iff.mp hfind x hx
    simpa using h2
  cases hdx : x.device_id with
  | none => simp [sharesKey, hdx]
  | some d1 =>
    cases hdr : (createdRow now s.nextId (createDataOfRecord uid record)).device_id with
    | none => simp [sharesKey, hdx, hdr]
    | some d2 =>
      cases htx : x.client_timestamp with
      | none => simp [sharesKey, hdx, hdr, htx]
      | some t1 =>
        cases htr : (createdRow now s.nextId (createDataOfRecord uid record)).client_timestamp with
        | none => simp [sharesKey, hdx, hdr, htx, htr]
        | some t2 =>
          have hrd : record.deviceId = some d2 :=
            @orNullStr_eq_some ((createDataOfRecord uid record).deviceId) d2 hdr
          have hrt : record.clientTimestamp = some t2 := htr
          simp only [sharesKey, hdx, hdr, htx, htr]
          by_contra hcon
          rw [Bool.not_eq_false, Bool.and_eq_true, decide_eq_true_eq,
            decide_eq_true_eq] at hcon
          exact hnp (by
            rw [hdx, hrd, htx, hrt]
            simp [sqlEq, hcon.1, hcon.2])

/-- Store effect of one pipeline iteration over the pure gateway: the
store is unchanged, or mutated by the UPDATE of the client-wins branch,
or extended by the INSERT of the no-match branch — and the INSERT
happens only when the dedup lookup found no row. -/
theorem syncStep_store_cases (now : Int) (uid : String) (acc : SyncState)
    (record : JsRecord) :
    (syncStep (pureGateway now) uid acc record).store = acc.store ∨
    (∃ er res s2,
      (findByDeviceAndClientTimestamp acc.store record.deviceId record.clientTimestamp).head? = some er ∧
      attendanceUpdate acc.store er.id (updateMapOfRecord record (er.sync_version + 1)) = Except.ok (res, s2) ∧
      (syncStep (pureGateway now) uid acc record).store = s2) ∨
    (∃ row s2,
      findByDeviceAndClientTimestamp acc.store record.deviceId record.clientTimestamp = [] ∧
      attendanceCreate now acc.store (createDataOfRecord uid record) = Except.ok (row, s2) ∧
      (syncStep (pureGateway now) uid acc record).store = s2) := by
  unfold syncStep
  split
  · exact Or.inl rfl
  · split
    · next e heq =>
      simp [pureGateway] at heq
    · next rows heq =>
      simp only [pureGateway] at heq
      cases heq
      split
      · next er her =>
        split
        · split
          · exact Or.inl rfl
          · split
            · split
              · next e hupd =>
                simp only [pureGateway] at hupd
                exact Or.inl rfl
              · next fst store2 hupd =>
                simp only [pureGateway] at hupd
                exact Or.inr (Or.inl ⟨er, fst, store2, her, hupd, rfl⟩)
            · exact Or.inl rfl
        · exact Or.inl rfl
      · next hnone =>
        split
        · next e hcr =>
          simp only [pureGateway] at hcr
          exact Or.inl rfl
        · next row store2 hcr =>
          simp only [pureGateway] at hcr
          exact Or.inr (Or.inr ⟨row, store2,
            List.head?_eq_none_iff.mp hnone, hcr, rfl⟩)

/-- One pipeline iteration over the pure gateway preserves dedup-key
uniqueness of the store. -/
theorem syncStep_preserves_dedup (now : Int) (uid : String) (acc : SyncState)
    (record : JsRecord) (hd : dedupOk acc.store.rows = true) :
    dedupOk ((syncStep (pureGateway now) uid acc record).store).rows = true := by
  rcases syncStep_store_cases now uid acc record with h | ⟨er, res, s2, _, hupd, hs⟩ |
    ⟨row, s2, hfind, hcr, hs⟩
  · rw [h]; exact hd
  · rw [hs]
    exact attendanceUpdate_preserves_dedup hupd hd
  · rw [hs]
    rcases attendanceCreate_ok_elim hcr with ⟨hrow, hs2⟩
    rw [hs2]
    show dedupOk (acc.store.rows ++ [row]) = true
    rw [dedupOk_append_singleton, Bool.and_eq_true]
    refine ⟨hd, ?_⟩
    rw [List.all_eq_true]
    intro x hx
    rw [hrow]
    have := no_share_of_find_empty uid hfind now x hx
    simp [this]

/-- The whole batch loop over the pure gateway preserves dedup-key
uniqueness of the store. -/
theorem foldl_syncStep_preserves_dedup (now : Int) (uid : String) :
    ∀ (records : List JsRecord) (acc : SyncState),
      dedupOk acc.store.rows = true →
      dedupOk ((records.foldl (syncStep (pureGateway now) uid) acc).store).rows = true
  | [], _, h => h
  | r :: rs, acc, h =>
    foldl_syncStep_preserves_dedup now uid rs (syncStep (pureGateway now) uid acc r)
      (syncStep_preserves_dedup now uid acc r h)

/-- C5: dedup-key uniqueness is an invariant of `syncOfflineRecords`
over the pure store: if no two stored rows share a present
`(device_id, client_timestamp)` pair before a batch, none do after it.
A new row is inserted only in the branch where the lookup by the
incoming record's pair found no row, updates never touch the key
columns, and a row one of whose key components is `NULL` carries no
dedup key (SQL equality never matches it). -/
theorem c5_dedup_uniqueness_preserved (now : Int) (uid : String)
    (records : List JsRecord) (s0 : Store)
    (h : dedupOk s0.rows = true) :
    dedupOk ((syncOfflineRecords (pureGateway now) now uid records s0).2.rows) = true := by
  unfold syncOfflineRecords
  exact foldl_syncStep_preserves_dedup now uid records { store := s0 } h

/-- C5 witness: the invariant theorem applied to a concrete store
holding one row and a concrete two-record batch (one insert, one
conflicting update). -/
theorem c5_dedup_uniqueness_preserved_witness :
    dedupOk exStore.rows = true ∧
    dedupOk ((syncOfflineRecords (pureGateway 999) 999 "u"
      [exDocRecord, exClientWinsRecord] exStore).2.rows) = true :=
  ⟨by decide,
    c5_dedup_uniqueness_preserved 999 "u" [exDocRecord, exClientWinsRecord] exStore
      (by decide)⟩

/-- Each pipeline iteration routes its record to exactly one bucket,
for any gateway behaviour (including failing storage operations). -/
theorem syncStep_bucket_count (gw : Gateway) (uid : String) (acc : SyncState)
    (record : JsRecord) :
    (syncStep gw uid acc record).synced.length +
    (syncStep gw uid acc record).conflicts.length +
    (syncStep gw uid acc record).errors.length =
    acc.synced.length + acc.conflicts.length + acc.errors.length + 1 := by
  unfold syncStep
  repeat' split
  all_goals simp only [List.length_append, List.length_cons, List.length_nil]
  all_goals omega

/-- The batch loop adds exactly one bucket entry per input record, for
any gateway behaviour. -/
theorem foldl_syncStep_bucket_count (gw : Gateway) (uid : String) :
    ∀ (records : List JsRecord) (acc : SyncState),
      (records.foldl (syncStep gw uid) acc).synced.length +
      (records.foldl (syncStep gw uid) acc).conflicts.length +
      (records.foldl (syncStep gw uid) acc).errors.length =
      acc.synced.length + acc.conflicts.length + acc.errors.length + records.length
  | [], acc => by simp
  | r :: rs, acc => by
    have h1 := foldl_syncStep_bucket_count gw uid rs (syncStep gw uid acc r)
    have h2 := syncStep_bucket_count gw uid acc r
    simp only [List.foldl_cons, List.length_cons]
    omega

/-- C8: for every input batch and every gateway behaviour — storage
operations may fail on any record — the response of
`syncOfflineRecords` reports counts equal to the lengths of its three
buckets, and those lengths sum to the input length: every input record
contributes exactly one entry to exactly one bucket, and no per-record
failure prevents the remaining records from being processed. -/
theorem c8_response_partitions_input (gw : Gateway) (now : Int) (uid : String)
    (records : List JsRecord) (s0 : Store) :
    (syncOfflineRecords gw now uid records s0).1.synced =
      (syncOfflineRecords gw now uid records s0).1.dataSynced.length ∧
    (syncOfflineRecords gw now uid records s0).1.conflicts =
      (syncOfflineRecords gw now uid records s0).1.dataConflicts.length ∧
    (syncOfflineRecords gw now uid records s0).1.errors =
      (syncOfflineRecords gw now uid records s0).1.dataErrors.length ∧
    (syncOfflineRecords gw now uid records s0).1.dataSynced.length +
      (syncOfflineRecords gw now uid records s0).1.dataConflicts.length +
      (syncOfflineRecords gw now uid records s0).1.dataErrors.length = records.length := by
  refine ⟨rfl, rfl, rfl, ?_⟩
  have h := foldl_syncStep_bucket_count gw uid records { store := s0 }
  simpa [syncOfflineRecords, createSyncResponse] using h

/-- C7: a conflict whose declared strategy is not one of `client_wins`,
`server_wins`, `manual` resolves exactly like `server_wins`: the
existing record is the winner and the resolved value, and the service
performs no store write, acknowledging the record with
`action "updated"` and `resolution "server"` — client data is never
applied. -/
theorem c7_unrecognized_strategy_acts_as_server_wins
    (now : Int) (uid : String) (acc : SyncState) (record : JsRecord) (er : Row)
    (strat : String)
    (hs : strategyOf record = strat)
    (h1 : strat ≠ "client_wins") (h2 : strat ≠ "server_wins") (h3 : strat ≠ "manual")
    (hval : (validateSyncMetadata record).isValid = true)
    (hfind : (findByDeviceAndClientTimestamp acc.store record.deviceId
      record.clientTimestamp).head? = some er)
    (hconf : hasConflict record er = true) :
    (resolveConflict record er strat).winner = "server" ∧
    (resolveConflict record er strat).winner = (resolveConflict record er "server_wins").winner ∧
    (resolveConflict record er strat).resolved = some (Sum.inr er) ∧
    (resolveConflict record er strat).resolved = (resolveConflict record er "server_wins").resolved ∧
    (syncStep (pureGateway now) uid acc record).store = acc.store ∧
    (syncStep (pureGateway now) uid acc record).synced =
      acc.synced ++ [{ id := er.id, action := "updated", resolution := some "server" }] ∧
    (syncStep (pureGateway now) uid acc record).conflicts = acc.conflicts ∧
    (syncStep (pureGateway now) uid acc record).errors = acc.errors := by
  have hres : resolveConflict record er strat =
      { resolved := some (Sum.inr er), winner := "server",
        reason := "Unknown strategy, defaulted to server_wins" } := by
    unfold resolveConflict
    rw [if_neg h1, if_neg h2, if_neg h3]
  have hstep : syncStep (pureGateway now) uid acc record =
      { acc with synced := acc.synced ++
          [{ id := er.id, action := "updated", resolution := some "server" }] } := by
    unfold syncStep
    simp only [pureGateway, hval, hfind, hconf, hs, hres]
    simp
  exact ⟨by rw [hres], by rw [hres]; rfl, by rw [hres], by rw [hres]; rfl,
    by rw [hstep], by rw [hstep], by rw [hstep], by rw [hstep]⟩

/-- C9: a conflict whose declared strategy is `manual` is routed to the
`conflicts` bucket carrying both the incoming record and the existing
stored record, and the store is not written at all: the existing row is
unchanged and the incoming record is not persisted. -/
theorem c9_manual_conflict_no_write_both_surfaced
    (now : Int) (uid : String) (acc : SyncState) (record : JsRecord) (er : Row)
    (hval : (validateSyncMetadata record).isValid = true)
    (hfind : (findByDeviceAndClientTimestamp acc.store record.deviceId
      record.clientTimestamp).head? = some er)
    (hconf : hasConflict record er = true)
    (hs : strategyOf record = "manual") :
    (syncStep (pureGateway now) uid acc record).store = acc.store ∧
    (syncStep (pureGateway now) uid acc record).conflicts =
      acc.conflicts ++
        [{ record := record, existingRecord := er,
           resolution := resolveConflict record er "manual" }] ∧
    (syncStep (pureGateway now) uid acc record).synced = acc.synced ∧
    (syncStep (pureGateway now) uid acc record).errors = acc.errors := by
  have hstep : syncStep (pureGateway now) uid acc record =
      { acc with conflicts := acc.conflicts ++
          [{ record := record, existingRecord := er,
             resolution := resolveConflict record er "manual" }] } := by
    unfold syncStep
    simp only [pureGateway, hval, hfind, hconf, hs]
    have hw : (resolveConflict record er "manual").winner = "manual" := rfl
    simp [hw]
  exact ⟨by rw [hstep], by rw [hstep], by rw [hstep], by rw [hstep]⟩

/-- C7 witness: the unrecognized-strategy theorem applied at the
concrete conflicting pair with declared strategy `bogus`. -/
theorem c7_witness_bogus_strategy :
    (resolveConflict exBogusRecord exServerRow "bogus").winner = "server" ∧
    (resolveConflict exBogusRecord exServerRow "bogus").winner =
      (resolveConflict exBogusRecord exServerRow "server_wins").winner ∧
    (resolveConflict exBogusRecord exServerRow "bogus").resolved = some (Sum.inr exServerRow) ∧
    (resolveConflict exBogusRecord exServerRow "bogus").resolved =
      (resolveConflict exBogusRecord exServerRow "server_wins").resolved ∧
    (syncStep (pureGateway 999) "u" { store := exStore } exBogusRecord).store =
      ({ store := exStore } : SyncState).store ∧
    (syncStep (pureGateway 999) "u" { store := exStore } exBogusRecord).synced =
      ({ store := exStore } : SyncState).synced ++
        [{ id := exServerRow.id, action := "updated", resolution := some "server" }] ∧
    (syncStep (pureGateway 999) "u" { store := exStore } exBogusRecord).conflicts =
      ({ store := exStore } : SyncState).conflicts ∧
    (syncStep (pureGateway 999) "u" { store := exStore } exBogusRecord).errors =
      ({ store := exStore } : SyncState).errors :=
  c7_unrecognized_strategy_acts_as_server_wins 999 "u" { store := exStore }
    exBogusRecord exServerRow "bogus" (by decide) (by decide) (by decide) (by decide)
    (by decide) (by decide) (by decide)

/-- C9 witness: the manual-strategy theorem applied at the concrete
conflicting pair with declared strategy `manual`. -/
theorem c9_witness_manual_strategy :
    (syncStep (pureGateway 999) "u" { store := exStore } exManualRecord).store =
      ({ store := exStore } : SyncState).store ∧
    (syncStep (pureGateway 999) "u" { store := exStore } exManualRecord).conflicts =
      ({ store := exStore } : SyncState).conflicts ++
        [{ record := exManualRecord, existingRecord := exServerRow,
           resolution := resolveConflict exManualRecord exServerRow "manual" }] ∧
    (syncStep (pureGateway 999) "u" { store := exStore } exManualRecord).synced =
      ({ store := exStore } : SyncState).synced ∧
    (syncStep (pureGateway 999) "u" { store := exStore } exManualRecord).errors =
      ({ store := exStore } : SyncState).errors :=
  c9_manual_conflict_no_write_both_surfaced 999 "u" { store := exStore }
    exManualRecord exServerRow (by decide) (by decide) (by decide) (by decide)
